import Mathlib

/-!
Verification of the KG Issue Dashboard backend against its design
specification.  The Python source is shallowly embedded: issue bodies are
lists of characters, the regex checks of the scoring service are modelled
as executable scanners, and the orchestrator endpoints become pure state
transformers.
-/

namespace KGDash

/-! ## Python string primitives -/

/-- Whitespace characters recognised by the regex class \s and by strip. -/
def pySpace (c : Char) : Bool :=
  c = ' ' || c = '\t' || c = '\n' || c = '\r' || c = '\x0b' || c = '\x0c'

/-- Model of str.lower, applied characterwise. -/
def pyLower (l : List Char) : List Char := l.map Char.toLower

/-- Model of str.strip: drop whitespace from both ends. -/
def pyStrip (l : List Char) : List Char :=
  ((l.dropWhile pySpace).reverse.dropWhile pySpace).reverse

/-- Model of the Python substring test, pat in hay. -/
def containsSub (hay pat : List Char) : Bool :=
  match hay with
  | [] => pat.isEmpty
  | _ :: t => pat.isPrefixOf hay || containsSub t pat

/-- re.search for an alternation of literal substrings. -/
def containsAny (hay : List Char) (pats : List (List Char)) : Bool :=
  pats.any (containsSub hay)

/-- A regex word character [a-zA-Z0-9_]. -/
def isWordChar (c : Char) : Bool := c.isAlphanum || c = '_'

/-- Generic re.search: some suffix of the text satisfies the
position matcher (the empty suffix included). -/
def searchAny (p : List Char → Bool) : List Char → Bool
  | [] => p []
  | c :: t => p (c :: t) || searchAny p t

/-! ## The regex patterns of the scoring service -/

/-- Extension alternation of the clarity file pattern, in source order. -/
def clarityExts : List (List Char) :=
  ["py", "ts", "js", "tsx", "jsx", "css", "html"].map String.toList

/-- Extension alternation of the blast-radius and action-plan file
patterns, in source order. -/
def blastExts : List (List Char) :=
  ["py", "js", "ts", "tsx", "jsx", "css", "html"].map String.toList

/-- Word boundary after an extension: end of text or a non-word char. -/
def boundaryAfter : List Char → Bool
  | [] => true
  | c :: _ => !(isWordChar c)

/-- Position matcher for the clarity pattern: a dot, one of the
extensions, then a word boundary. -/
def extMatchAt (exts : List (List Char)) : List Char → Bool
  | '.' :: rest => exts.any (fun e => e.isPrefixOf rest && boundaryAfter (rest.drop e.length))
  | _ => false

/-- Content between backticks matches when it is a nonempty name
followed by a dot and one of the extensions. -/
def contentIsFileRef (exts : List (List Char)) (content : List Char) : Bool :=
  exts.any (fun e => ('.' :: e).isSuffixOf content && e.length + 2 ≤ content.length)

/-- re.findall scanner for the backtick-quoted filename pattern as a
character machine: outside backticks the accumulator is none; inside,
it holds the quoted content so far, reversed.  A closing backtick
whose content names a recognised file yields a match and returns the
scanner outside; a failed content lets the closing backtick reopen, as
the regex engine would retry from it. -/
def fileRefAux (exts : List (List Char)) : Option (List Char) → List Char → List (List Char)
  | _, [] => []
  | none, c :: t =>
    if c = '`' then fileRefAux exts (some []) t else fileRefAux exts none t
  | some acc, c :: t =>
    if c = '`' then
      if contentIsFileRef exts acc.reverse then acc.reverse :: fileRefAux exts none t
      else fileRefAux exts (some []) t
    else fileRefAux exts (some (c :: acc)) t

/-- re.findall for the backtick-quoted filename pattern.  Returns the
matched quoted contents in order; the length is the Python file count. -/
def fileRefScan (exts : List (List Char)) (body : List Char) : List (List Char) :=
  fileRefAux exts none body

/-- A directory-segment character [a-zA-Z_]. -/
def isDirWord (c : Char) : Bool := c.isAlpha || c = '_'

/-- Scanner state for the multiple-directory pattern: outside any run,
just after a slash having completed k segments, or inside the word of
a segment with k segments completed (the current one included). -/
inductive DirState where
  | outside : DirState
  | afterSlash : Nat → DirState
  | inWord : Nat → DirState
deriving Repr, DecidableEq

/-- re.findall match counter for the multiple-directory pattern: a
maximal run of slash-word segments counts as one match when it has at
least two segments.  A dangling slash is left unconsumed by the
backtracking engine and can only start a fresh run when followed by a
word character, which the state transitions reproduce. -/
def dirScanAux : Nat → DirState → List Char → Nat
  | n, .outside, [] => n
  | n, .afterSlash k, [] => if 2 ≤ k then n + 1 else n
  | n, .inWord k, [] => if 2 ≤ k then n + 1 else n
  | n, .outside, c :: t =>
    dirScanAux n (if c = '/' then .afterSlash 0 else .outside) t
  | n, .afterSlash k, c :: t =>
    if isDirWord c then dirScanAux n (.inWord (k + 1)) t
    else dirScanAux (if 2 ≤ k then n + 1 else n)
      (if c = '/' then .afterSlash 0 else .outside) t
  | n, .inWord k, c :: t =>
    if isDirWord c then dirScanAux n (.inWord k) t
    else if c = '/' then dirScanAux n (.afterSlash k) t
    else dirScanAux (if 2 ≤ k then n + 1 else n) .outside t

/-- re.findall match count for the multiple-directory pattern. -/
def dirScan (body : List Char) : Nat := dirScanAux 0 .outside body

/-- Identifier start character [a-zA-Z_]. -/
def identStart (c : Char) : Bool := c.isAlpha || c = '_'

/-- Identifier continuation character [a-zA-Z0-9_]. -/
def identChar (c : Char) : Bool := c.isAlphanum || c = '_'

/-- After the first identifier character of a backtick-quoted call:
consume identifier characters until an open paren followed by a
closing backtick. -/
def tickCallAfter : List Char → Bool
  | '(' :: '`' :: _ => true
  | c :: t => identChar c && tickCallAfter t
  | [] => false

/-- Position matcher for a backtick-quoted function call. -/
def funcTickAt : List Char → Bool
  | '`' :: c :: t => identStart c && tickCallAfter t
  | _ => false

/-- Position matcher for the literal def, function and class forms of
the function-reference pattern. -/
def funcWordAt (l : List Char) : Bool :=
  ("def ".toList.isPrefixOf l &&
    (match l.drop 4 with | c :: _ => identStart c | [] => false)) ||
  ("function ".toList.isPrefixOf l &&
    (match l.drop 9 with | c :: _ => identStart c | [] => false)) ||
  ("class ".toList.isPrefixOf l &&
    (match l.drop 6 with | c :: _ => c.isUpper | [] => false))

/-- The full function-reference search of the testability dimension. -/
def funcRefSearch (body : List Char) : Bool :=
  searchAny (fun l => funcTickAt l || funcWordAt l) body

/-! ## Scoring data model (schemas/models.py) -/

/-- Score for a single dimension with explanatory factors. -/
structure ScoreFactors where
  score : Int
  factors : List String
deriving Repr, DecidableEq

/-- Breakdown of the confidence score into the four dimensions. -/
structure ConfidenceBreakdown where
  requirement_clarity : ScoreFactors
  blast_radius : ScoreFactors
  system_sensitivity : ScoreFactors
  testability : ScoreFactors
deriving Repr, DecidableEq

/-- Overall confidence score with detailed breakdown. -/
structure ConfidenceScore where
  total : Int
  breakdown : ConfidenceBreakdown
deriving Repr, DecidableEq

/-- Full analysis of a ticket. -/
structure TicketAnalysis where
  root_issue : String
  action_plan : List String
  confidence_score : ConfidenceScore
deriving Repr, DecidableEq

/-! ## The four dimension scorers (services/scoring_service.py) -/

/-- The final clamp applied to every dimension: score into [0, 25]. -/
def clamp25 (x : Int) : Int := max 0 (min 25 x)

/-- The closed vocabulary of vague titles. -/
def vagueTitles : List (List Char) :=
  ["bug", "issue", "fix", "problem", "error"].map String.toList

/-- Requirement-clarity dimension, from _score_requirement_clarity.
The source mutates score with independent additive rules and appends a
factor string per rule; the embedding sums the same deltas and
concatenates the same factor lists in source order. -/
def score_requirement_clarity (body title : List Char) : ScoreFactors :=
  let has_sections := containsSub body "## Description".toList ||
    containsSub body "## Requirements".toList
  let has_acceptance := containsSub body "## Acceptance Criteria".toList ||
    containsSub (pyLower body) "definition of done".toList
  let is_long := 200 < body.length
  let has_files := searchAny (extMatchAt clarityExts) body
  let is_minimal := body.isEmpty || body.length < 50
  let is_vague_title := title.length < 30 && vagueTitles.contains (pyLower title)
  let score : Int := 10 +
    (if has_sections then 5 else 0) +
    (if has_acceptance then 5 else 0) +
    (if is_long then 3 else 0) +
    (if has_files then 2 else 0) -
    (if is_minimal then 5 else 0) -
    (if is_vague_title then 3 else 0)
  { score := clamp25 score
    factors :=
      (if has_sections then ["Has markdown sections (+5)"] else []) ++
      (if has_acceptance then ["Has acceptance criteria (+5)"] else []) ++
      (if is_long then ["Detailed description (+3)"] else []) ++
      (if has_files then ["Specifies files to modify (+2)"] else []) ++
      (if is_minimal then ["Empty or minimal description (-5)"] else []) ++
      (if is_vague_title then ["Vague title (-3)"] else []) }

/-- The factor string recorded for a multiple-file penalty. -/
def multiFileFactor (file_count : Nat) : String :=
  "Multiple files mentioned (" ++ toString file_count ++ ") (-" ++
    toString ((file_count - 2) * 3) ++ ")"

/-- The factor string recorded for the single-file bonus. -/
def singleFileFactor : String := "Single file or no files mentioned (+5)"

/-- Blast-radius dimension, from _score_blast_radius. -/
def score_blast_radius (body : List Char) (labels : List (List Char)) : ScoreFactors :=
  let file_count := (fileRefScan blastExts body).length
  let fileAdj : Int × List String :=
    if file_count ≤ 1 then (5, [singleFileFactor])
    else if 2 < file_count then
      (-(((file_count - 2) * 3 : Nat) : Int), [multiFileFactor file_count])
    else (0, [])
  let label_names_lower := labels.map pyLower
  let has_bug_label := label_names_lower.contains "bug".toList ||
    label_names_lower.contains "fix".toList
  let body_lower := pyLower body
  let has_refactor := containsSub body_lower "refactor".toList ||
    containsSub body_lower "restructure".toList
  let has_broad := containsSub body_lower " all ".toList ||
    containsSub body_lower " every ".toList
  let many_dirs := 1 < dirScan body
  let score : Int := 20 + fileAdj.1 +
    (if has_bug_label then 3 else 0) -
    (if has_refactor then 5 else 0) -
    (if has_broad then 3 else 0) -
    (if many_dirs then 5 else 0)
  { score := clamp25 score
    factors := fileAdj.2 ++
      (if has_bug_label then ["Bug/fix label - usually contained (+3)"] else []) ++
      (if has_refactor then ["Contains refactor/restructure (-5)"] else []) ++
      (if has_broad then ["Broad scope (all/every) (-3)"] else []) ++
      (if many_dirs then ["Mentions multiple directories (-5)"] else []) }

/-- The critical keyword families of the sensitivity dimension, in the
insertion order of the source dictionary: alternation, display name,
penalty. -/
def criticalKeywords : List (List (List Char) × String × Int) :=
  [ (["auth", "authentication", "login", "password", "token"].map String.toList,
      ("authentication", 7)),
    (["payment", "billing", "stripe", "subscription"].map String.toList,
      ("payment/billing", 7)),
    (["database", "migration", "schema"].map String.toList,
      ("database/migration", 5)),
    (["delete", "remove", "drop"].map String.toList,
      ("delete/remove operations", 5)),
    (["dependency", "package", "upgrade"].map String.toList,
      ("dependency changes", 3)),
    (["api", "endpoint"].map String.toList,
      ("API changes", 3)) ]

/-- System-sensitivity dimension, from _score_system_sensitivity. -/
def score_system_sensitivity (body : List Char) : ScoreFactors :=
  let body_lower := pyLower body
  let hits := criticalKeywords.filter (fun kw => containsAny body_lower kw.1)
  let non_breaking := containsSub body_lower "non-breaking".toList ||
    containsSub body_lower "backwards compatible".toList
  let score : Int := 20 - (hits.map (fun kw => kw.2.2)).sum +
    (if hits.isEmpty then 5 else 0) +
    (if non_breaking then 3 else 0)
  { score := clamp25 score
    factors :=
      hits.map (fun kw => "Touches " ++ kw.2.1 ++ " (-" ++ toString kw.2.2 ++ ")") ++
      (if hits.isEmpty then ["No critical system keywords (+5)"] else []) ++
      (if non_breaking then ["Explicitly non-breaking (+3)"] else []) }

/-- Testability dimension, from _score_testability. -/
def score_testability (body : List Char) : ScoreFactors :=
  let body_lower := pyLower body
  let has_error := containsAny body_lower
    (["error", "exception", "traceback", "stack trace"].map String.toList)
  let has_test := containsSub body_lower "test".toList
  let has_repro := containsSub body_lower "steps to reproduce".toList ||
    containsSub body_lower "reproduction".toList
  let has_func := funcRefSearch body
  let intermittent := containsSub body_lower "sometimes".toList ||
    containsSub body_lower "intermittent".toList
  let hedging := containsSub body_lower "not sure".toList ||
    containsSub body_lower "might be".toList
  let score : Int := 15 +
    (if has_error then 5 else 0) +
    (if has_test then 5 else 0) +
    (if has_repro then 3 else 0) +
    (if has_func then 2 else 0) -
    (if intermittent then 5 else 0) -
    (if hedging then 3 else 0)
  { score := clamp25 score
    factors :=
      (if has_error then ["Contains error message/stack trace (+5)"] else []) ++
      (if has_test then ["Mentions testing (+5)"] else []) ++
      (if has_repro then ["Has steps to reproduce (+3)"] else []) ++
      (if has_func then ["References specific function/class (+2)"] else []) ++
      (if intermittent then ["Intermittent issue (-5)"] else []) ++
      (if hedging then ["Uncertainty in description (-3)"] else []) }

/-- Confidence score assembly, from _calculate_confidence_score. -/
def calculate_confidence_score (body title : List Char)
    (labels : List (List Char)) : ConfidenceScore :=
  let requirement_clarity := score_requirement_clarity body title
  let blast_radius := score_blast_radius body labels
  let system_sensitivity := score_system_sensitivity body
  let testability := score_testability body
  { total := requirement_clarity.score + blast_radius.score +
      system_sensitivity.score + testability.score
    breakdown :=
      { requirement_clarity := requirement_clarity
        blast_radius := blast_radius
        system_sensitivity := system_sensitivity
        testability := testability } }

/-! ## Root issue extraction (_extract_root_issue) -/

/-- The group of the description regex is lazy up to a lookahead for a
newline followed by two hashes, or end of text. -/
def takeUntilHdr : List Char → List Char
  | [] => []
  | c :: t => if "\n##".toList.isPrefixOf (c :: t) then [] else c :: takeUntilHdr t

/-- re.search for the description-section pattern, case-insensitive.
At each candidate start the tag must be followed by a whitespace run
containing a newline; the greedy whitespace consumes through the last
newline of the run, and the lazy group then extends to the next header
or the end.  A candidate without a newline in its run fails and the
search continues further right. -/
def findDescContent : List Char → Option (List Char)
  | [] => none
  | c :: t =>
    if ((c :: t).take 14).map Char.toLower = "## description".toList then
      let rest := (c :: t).drop 14
      let ws := rest.takeWhile pySpace
      if ws.contains '\n' then
        some (takeUntilHdr
          ((ws.reverse.takeWhile (fun x => x ≠ '\n')).reverse ++ rest.drop ws.length))
      else findDescContent t
    else findDescContent t

/-- re.split on whitespace preceded by sentence punctuation.  The
accumulator holds the current piece reversed, so its head is the
character before a split candidate; the flag records that the scanner
is inside the whitespace run of a match being consumed greedily. -/
def sentSplitAux : List Char → Bool → List Char → List (List Char)
  | acc, false, [] => [acc.reverse]
  | acc, false, c :: t =>
    if pySpace c ∧
        (acc.head? = some '.' ∨ acc.head? = some '!' ∨ acc.head? = some '?') then
      acc.reverse :: sentSplitAux [] true t
    else sentSplitAux (c :: acc) false t
  | _, true, [] => [[]]
  | _, true, c :: t =>
    if pySpace c then sentSplitAux [] true t
    else sentSplitAux [c] false t

/-- Python body.split with a double newline, first piece. -/
def takeUntilBlankLine : List Char → List Char
  | [] => []
  | c :: t =>
    if c = '\n' ∧ t.head? = some '\n' then [] else c :: takeUntilBlankLine t

/-- re.sub for leading markdown header markers: one or more hashes at
the very start, then a whitespace run. -/
def stripLeadingHashes (l : List Char) : List Char :=
  if l.head? = some '#' then (l.dropWhile (fun c => c = '#')).dropWhile pySpace
  else l

/-- The sentinel returned for bodies without usable detail. -/
def insufficientDetail : String := "Insufficient detail - please add description"

/-- Root issue extraction, from _extract_root_issue. -/
def extract_root_issue (body : List Char) : String :=
  if body.isEmpty || (pyStrip body).length < 10 then insufficientDetail
  else
    let fromDesc : Option String :=
      match findDescContent body with
      | some grp =>
        let desc_text := pyStrip grp
        let root := pyStrip (List.intercalate [' '] ((sentSplitAux [] false desc_text).take 2))
        if root.isEmpty then none else some (String.mk (root.take 300))
      | none => none
    match fromDesc with
    | some r => r
    | none =>
      let first_para := stripLeadingHashes (pyStrip (takeUntilBlankLine body))
      if first_para.isEmpty then insufficientDetail
      else String.mk (first_para.take 200)

/-! ## Action plan generation (_generate_action_plan) -/

/-- One line of the body matched against the numbered-list pattern:
leading whitespace, digits, a dot, at least one whitespace character,
then the captured remainder of the line.  The greedy whitespace after
the dot backtracks one character when nothing else remains. -/
def numItemOfLine (L : List Char) : Option (List Char) :=
  let afterWs := L.dropWhile pySpace
  let ds := afterWs.takeWhile Char.isDigit
  if ds.isEmpty then none
  else
    match afterWs.drop ds.length with
    | '.' :: tail =>
      let wsr := tail.takeWhile pySpace
      let rest := tail.drop wsr.length
      if wsr.isEmpty then none
      else if !rest.isEmpty then some rest
      else if 2 ≤ wsr.length then some (wsr.drop (wsr.length - 1))
      else none
    | _ => none

/-- Action plan generation, from _generate_action_plan. -/
def generate_action_plan (body : List Char) : List String :=
  let numbered := (body.splitOn '\n').filterMap numItemOfLine
  if !numbered.isEmpty then
    (numbered.take 4).map (fun item => String.mk (pyStrip item))
  else
    (((fileRefScan blastExts body).take 2).map (fun f => "Modify " ++ String.mk f)) ++
    ["Implement fix"] ++
    (if containsSub (pyLower body) "test".toList then ["Add/update tests"] else []) ++
    ["Verify solution"]

/-! ## Ticket analysis entry point (analyze_ticket) -/

/-- The fields of a GitHub issue dictionary consulted by the scoring
service, plus a field it never reads.  A missing key and an explicit
None both become the empty string in the source. -/
structure Issue where
  title : Option String
  body : Option String
  labels : List (Option String)
  state : String
deriving Repr, DecidableEq

/-- Full ticket analysis, from analyze_ticket. -/
def analyze_ticket (issue : Issue) : TicketAnalysis :=
  let body := (issue.body.getD "").toList
  let title := (issue.title.getD "").toList
  let labels := issue.labels.map (fun lab => (lab.getD "").toList)
  { root_issue := extract_root_issue body
    action_plan := generate_action_plan body
    confidence_score := calculate_confidence_score body title labels }

/-! ## Execution session model (services/devin_service.py, execute_task)

The remote session is modelled as the sequence of statuses returned by
successive polls; a transient fetch failure is one more possible
answer.  The progress, completion and worktree callbacks become an
event list. -/

/-- Status of the remote session at one poll, as consumed by the
polling loop; fetchError stands for a get_session call that raised. -/
inductive Remote where
  | working : Remote
  | blocked : Remote
  | finished : Option (Option String) → Remote
  | expired : Remote
  | suspendRequested : Remote
  | fetchError : Remote
deriving Repr, DecidableEq

/-- A callback invocation observed by the caller of execute_task: a
running progress report, a failed progress report (always step 0), or
the completion callback with the extracted pull-request data. -/
inductive Ev where
  | run : String → Nat → Ev
  | failed : String → Ev
  | done : Option Nat → Option String → Ev
deriving Repr, DecidableEq

/-- True exactly for the completion event. -/
def evIsDone : Ev → Bool
  | .done _ _ => true
  | _ => false

/-- Remote statuses that keep the polling loop going. -/
def nonTerminal : Remote → Bool
  | .working => true
  | .blocked => true
  | .fetchError => true
  | _ => false

/-- The trailing path segment of a pull-request URL parsed as a
number, from the int conversion in the finished branch; a
non-numeric segment yields none. -/
def parsePrNumber (url : List Char) : Option Nat :=
  let lastPart := ((url.reverse.dropWhile (fun c => c = '/')).takeWhile
    (fun c => c ≠ '/')).reverse
  if !lastPart.isEmpty && lastPart.all Char.isDigit then
    some (lastPart.foldl (fun a c => 10 * a + (c.toNat - '0'.toNat)) 0)
  else none

/-- The progress labels of the working branch, in order. -/
def stepMessages : List String :=
  ["Devin is analyzing the codebase...",
   "Devin is implementing the solution...",
   "Devin is testing and creating PR..."]

/-- The coarse step counter reported at poll i, derived from the
elapsed time after that poll and capped at 3. -/
def stepAt (i : Nat) : Nat := min (1 + (30 * (i + 1)) / 60) 3

/-- The timeout error text. -/
def timeoutMsg : String := "Devin session timed out after 1 hour"

/-- The polling loop of execute_task.  The loop runs while elapsed
time, thirty units per completed poll, is below 3600; the fuel equals
the remaining iterations and never runs out before the guard fails.
On finished the loop breaks, and the timeout check after the loop
still fires when the elapsed time has reached the ceiling. -/
def pollLoopGo (remote : Nat → Remote) (session_url : String) : Nat → Nat → List Ev
  | fuel, i =>
    if 30 * i < 3600 then
      match fuel with
      | 0 => []
      | fuel' + 1 =>
        match remote i with
        | .fetchError => pollLoopGo remote session_url fuel' (i + 1)
        | .working =>
          Ev.run (stepMessages.getD (min (stepAt i - 1) 2) "") (stepAt i) ::
            pollLoopGo remote session_url fuel' (i + 1)
        | .blocked =>
          Ev.run ("Devin needs assistance - check " ++ session_url) 2 ::
            pollLoopGo remote session_url fuel' (i + 1)
        | .finished pull_request =>
          if 3600 ≤ 30 * (i + 1) then [Ev.failed timeoutMsg]
          else
            let pr_url := pull_request.getD none
            let pr_number :=
              match pr_url with
              | some u => if u ≠ "" then parsePrNumber u.toList else none
              | none => none
            [Ev.done pr_number pr_url]
        | .expired => [Ev.failed "Devin session ended unexpectedly: expired"]
        | .suspendRequested =>
          [Ev.failed "Devin session ended unexpectedly: suspend_requested"]
    else [Ev.failed timeoutMsg]

/-- The missing-credential error text of execute_task. -/
def keyMissingMsg : String :=
  "Devin API key not configured. Please set DEVIN_API_KEY in .env file."

/-- The callback events of one execute_task invocation, given whether
the credential is configured, whether session creation succeeds (and
its error text when not), the session url, and the remote poll
answers.  Cooperative cancellation makes the task return early without
emitting further events, so every behaviour with cancellation emits a
prefix of one of these lists. -/
def execute_task_events (api_key_configured create_ok : Bool)
    (create_err session_url : String) (remote : Nat → Remote) : List Ev :=
  if !api_key_configured then [Ev.failed keyMissingMsg]
  else
    Ev.run "Creating Devin session..." 0 ::
      (if create_ok then
        Ev.run "Devin is analyzing the codebase..." 1 ::
          pollLoopGo remote session_url 120 0
      else [Ev.failed create_err])

/-- The steps_completed values of the running progress reports, in
order of emission. -/
def runSteps (evs : List Ev) : List Nat :=
  evs.filterMap (fun e => match e with | .run _ n => some n | _ => none)

/-! ## Persistent records (database/repositories.py)

One ticket, identified by its (repo, issue_number) pair, together with
its jobs, newest first: get_latest_for_ticket is the head of the
list.  Timestamps are abstract instants; each state carries the clock
value used for CURRENT_TIMESTAMP. -/

/-- Ticket statuses stored by the routers. -/
inductive TStatus where
  | new : TStatus
  | scoped : TStatus
  | in_progress : TStatus
  | review : TStatus
  | complete : TStatus
deriving Repr, DecidableEq

/-- Job statuses stored by the repositories and routers. -/
inductive JStatus where
  | pending : JStatus
  | running : JStatus
  | completed : JStatus
  | failed : JStatus
  | cancelled : JStatus
deriving Repr, DecidableEq

/-- A row of the tickets table, the keyed identity left implicit. -/
structure TicketRec where
  status : TStatus
  scope_data : Option String
  pr_number : Option Nat
  pr_url : Option String
deriving Repr, DecidableEq

/-- A row of the jobs table. -/
structure JobRec where
  id : Nat
  status : JStatus
  current_step : Option String
  steps_completed : Nat
  total_steps : Nat
  error_message : Option String
  completed_at : Option Nat
  worktree_path : Option String
  branch_name : Option String
deriving Repr, DecidableEq

/-- JobRepository.create: a fresh row with running status, zero
progress and no timestamps beyond started_at. -/
def freshJob (id : Nat) : JobRec :=
  { id := id, status := .running, current_step := none, steps_completed := 0,
    total_steps := 4, error_message := none, completed_at := none,
    worktree_path := none, branch_name := none }

/-- JobRepository.update_status: each optional column is written only
when a value is supplied, and completed_at is stamped exactly when the
new status is completed or failed. -/
def jobUpdateStatus (j : JobRec) (status : JStatus) (current_step : Option String)
    (steps_completed : Option Nat) (error_message : Option String) (now : Nat) : JobRec :=
  { j with
    status := status
    current_step := current_step.orElse (fun _ => j.current_step)
    steps_completed := steps_completed.getD j.steps_completed
    error_message := error_message.orElse (fun _ => j.error_message)
    completed_at :=
      if status = .completed ∨ status = .failed then some now else j.completed_at }

/-- One update request against a job row, as issued by the callers of
JobRepository.update_status. -/
structure JobUpdate where
  status : JStatus
  current_step : Option String
  steps_completed : Option Nat
  error_message : Option String
  now : Nat
deriving Repr, DecidableEq

/-- A sequence of status updates applied in order. -/
def applyJobUpdates (j : JobRec) (us : List JobUpdate) : JobRec :=
  us.foldl (fun j u =>
    jobUpdateStatus j u.status u.current_step u.steps_completed u.error_message u.now) j

/-- The jobs-router cancel endpoint: rejected with an error when the
job is already terminal, otherwise the status is set to cancelled
through the same repository update. -/
def cancel_job_endpoint (j : JobRec) (now : Nat) : Option JobRec :=
  if j.status = .completed ∨ j.status = .failed ∨ j.status = .cancelled then none
  else some (jobUpdateStatus j .cancelled none none none now)

/-! ## Orchestrator operations (routers/tickets.py) -/

/-- The persistent state touched by the ticket endpoints: the tracked
ticket row, its jobs newest first, the process-wide cancellation set,
the next job identity, and the clock. -/
structure OrchState where
  ticket : Option TicketRec
  jobs : List JobRec
  cancel_flags : List Nat
  next_id : Nat
  now : Nat
deriving Repr, DecidableEq

/-- TicketRepository.create_or_update: insert with default status new
when absent; on conflict only the update timestamp changes. -/
def ticketCreateOrUpdate (t : Option TicketRec) : Option TicketRec :=
  some (t.getD { status := .new, scope_data := none, pr_number := none, pr_url := none })

/-- TicketRepository.update_status: a targeted update that is a no-op
when the row is missing. -/
def ticketUpdateStatus (s : TStatus) (t : Option TicketRec) : Option TicketRec :=
  t.map (fun x => { x with status := s })

/-- TicketRepository.update_scope_data. -/
def ticketUpdateScope (d : String) (t : Option TicketRec) : Option TicketRec :=
  t.map (fun x => { x with scope_data := some d })

/-- Targeted update of one job row by its identity. -/
def updateJobInList (jid : Nat) (f : JobRec → JobRec) (js : List JobRec) : List JobRec :=
  js.map (fun j => if j.id = jid then f j else j)

/-- The scope endpoint: upsert the ticket, store the fresh analysis,
set status scoped.  No status guard appears in the source. -/
def scope_ticket_op (st : OrchState) (scope_json : String) : OrchState :=
  let t := ticketUpdateStatus .scoped
    (ticketUpdateScope scope_json (ticketCreateOrUpdate st.ticket))
  { st with ticket := t }

/-- Error text of the execute endpoint for a missing credential. -/
def executeRejectNoKey : String :=
  "DEVIN_API_KEY is not configured. Please set the DEVIN_API_KEY environment variable to enable automated execution."

/-- Error text of the execute endpoint for a wrong ticket status. -/
def executeRejectStatus : String := "Ticket must be in 'scoped' status to execute"

/-- The execute endpoint: both guards fire before any write; on
success a running job is created and the ticket moves to
in_progress. -/
def execute_ticket_op (api_key_configured : Bool) (st : OrchState) :
    OrchState × Option String :=
  if !api_key_configured then (st, some executeRejectNoKey)
  else
    match st.ticket with
    | none => (st, some executeRejectStatus)
    | some t =>
      if t.status ≠ .scoped then (st, some executeRejectStatus)
      else
        ({ st with
            jobs := freshJob st.next_id :: st.jobs
            next_id := st.next_id + 1
            ticket := ticketUpdateStatus .in_progress st.ticket }, none)

/-- Error text of the cancel endpoint for a missing ticket. -/
def ticketNotFoundMsg : String := "Ticket not found"

/-- Error text of the cancel endpoint for a wrong job status. -/
def cancelRejectMsg : String := "No running or failed job to cancel"

/-- The cancel endpoint: permitted only when the latest job is running
or failed; a running job is flagged for cooperative cancellation and
force-marked failed with the sentinel text, and the ticket returns to
scoped in both permitted cases. -/
def cancel_ticket_op (st : OrchState) : OrchState × Option String :=
  match st.ticket with
  | none => (st, some ticketNotFoundMsg)
  | some _ =>
    match st.jobs.head? with
    | none => (st, some cancelRejectMsg)
    | some job =>
      if job.status ≠ .running ∧ job.status ≠ .failed then (st, some cancelRejectMsg)
      else
        let st1 :=
          if job.status = .running then
            { st with
                cancel_flags := job.id :: st.cancel_flags
                jobs := updateJobInList job.id
                  (fun j => jobUpdateStatus j .failed none none
                    (some "Cancelled by user") st.now) st.jobs }
          else st
        ({ st1 with ticket := ticketUpdateStatus .scoped st1.ticket }, none)

/-- Error text of the complete endpoint for a wrong ticket status. -/
def completeRejectMsg : String := "Ticket must be in 'review' status to mark complete"

/-- The complete endpoint: only a ticket in review moves to complete. -/
def complete_ticket_op (st : OrchState) : OrchState × Option String :=
  match st.ticket with
  | none => (st, some ticketNotFoundMsg)
  | some t =>
    if t.status ≠ .review then (st, some completeRejectMsg)
    else ({ st with ticket := ticketUpdateStatus .complete st.ticket }, none)

/-- The progress callback wired by the execute endpoint: update the
job row, and on a failed report reset the ticket to scoped. -/
def job_progress_cb (st : OrchState) (jid : Nat) (status : JStatus)
    (current_step : String) (steps_completed : Nat)
    (error_message : Option String) : OrchState :=
  let js := updateJobInList jid
    (fun j => jobUpdateStatus j status (some current_step) (some steps_completed)
      error_message st.now) st.jobs
  let st1 := { st with jobs := js }
  if status = .failed then
    { st1 with ticket := ticketUpdateStatus .scoped st1.ticket }
  else st1

/-- The completion callback: mark the job completed with full
progress, move the ticket to review unconditionally, and store the
pull-request fields. -/
def complete_job_cb (st : OrchState) (jid : Nat) (pr_number : Option Nat)
    (pr_url : Option String) : OrchState :=
  let js := updateJobInList jid
    (fun j => jobUpdateStatus j .completed (some "Complete") (some 4) none st.now) st.jobs
  let st1 := { st with jobs := js }
  let st2 := { st1 with ticket := ticketUpdateStatus .review st1.ticket }
  let t3 := st2.ticket.map (fun t => { t with pr_number := pr_number, pr_url := pr_url })
  { st2 with ticket := t3 }

/-- The worktree callback: store the session handle and branch name. -/
def worktree_cb (st : OrchState) (jid : Nat) (wp bn : String) : OrchState :=
  let js := updateJobInList jid
    (fun j => { j with worktree_path := some wp, branch_name := some bn }) st.jobs
  { st with jobs := js }

/-- The core operations, endpoints and execution callbacks together. -/
inductive Op where
  | scope : String → Op
  | execute : Bool → Op
  | cancel : Op
  | complete : Op
  | progress : Nat → JStatus → String → Nat → Option String → Op
  | completionCb : Nat → Option Nat → Option String → Op
  | worktreeCb : Nat → String → String → Op
deriving Repr, DecidableEq

/-- Apply one operation to the state, discarding responses. -/
def applyOp (st : OrchState) : Op → OrchState
  | .scope d => scope_ticket_op st d
  | .execute k => (execute_ticket_op k st).1
  | .cancel => (cancel_ticket_op st).1
  | .complete => (complete_ticket_op st).1
  | .progress jid s cs sc err => job_progress_cb st jid s cs sc err
  | .completionCb jid prn pru => complete_job_cb st jid prn pru
  | .worktreeCb jid wp bn => worktree_cb st jid wp bn

/-- The transition edges asserted by the specification. -/
def claimedEdge : TStatus → TStatus → Bool
  | .new, .scoped => true
  | .scoped, .in_progress => true
  | .in_progress, .review => true
  | .review, .complete => true
  | .in_progress, .scoped => true
  | _, _ => false

/-! ## Scoring engine theorems -/

theorem clamp25_nonneg (x : Int) : 0 ≤ clamp25 x := by
  unfold clamp25; omega

theorem clamp25_le (x : Int) : clamp25 x ≤ 25 := by
  unfold clamp25; omega

theorem score_requirement_clarity_bounds (body title : List Char) :
    0 ≤ (score_requirement_clarity body title).score ∧
      (score_requirement_clarity body title).score ≤ 25 :=
  ⟨clamp25_nonneg _, clamp25_le _⟩

theorem score_blast_radius_bounds (body : List Char) (labels : List (List Char)) :
    0 ≤ (score_blast_radius body labels).score ∧
      (score_blast_radius body labels).score ≤ 25 :=
  ⟨clamp25_nonneg _, clamp25_le _⟩

theorem score_system_sensitivity_bounds (body : List Char) :
    0 ≤ (score_system_sensitivity body).score ∧
      (score_system_sensitivity body).score ≤ 25 :=
  ⟨clamp25_nonneg _, clamp25_le _⟩

theorem score_testability_bounds (body : List Char) :
    0 ≤ (score_testability body).score ∧ (score_testability body).score ≤ 25 :=
  ⟨clamp25_nonneg _, clamp25_le _⟩

/-- C1: for every issue input, each of the four dimension scores lies
within [0, 25] after clamping, the total equals the sum of the four
dimension scores, and hence the total lies within [0, 100] by
construction. -/
theorem confidence_score_bounds (body title : List Char) (labels : List (List Char)) :
    (0 ≤ (calculate_confidence_score body title labels).breakdown.requirement_clarity.score ∧
      (calculate_confidence_score body title labels).breakdown.requirement_clarity.score ≤ 25) ∧
    (0 ≤ (calculate_confidence_score body title labels).breakdown.blast_radius.score ∧
      (calculate_confidence_score body title labels).breakdown.blast_radius.score ≤ 25) ∧
    (0 ≤ (calculate_confidence_score body title labels).breakdown.system_sensitivity.score ∧
      (calculate_confidence_score body title labels).breakdown.system_sensitivity.score ≤ 25) ∧
    (0 ≤ (calculate_confidence_score body title labels).breakdown.testability.score ∧
      (calculate_confidence_score body title labels).breakdown.testability.score ≤ 25) ∧
    (calculate_confidence_score body title labels).total =
      (calculate_confidence_score body title labels).breakdown.requirement_clarity.score +
      (calculate_confidence_score body title labels).breakdown.blast_radius.score +
      (calculate_confidence_score body title labels).breakdown.system_sensitivity.score +
      (calculate_confidence_score body title labels).breakdown.testability.score ∧
    0 ≤ (calculate_confidence_score body title labels).total ∧
    (calculate_confidence_score body title labels).total ≤ 100 := by
  have h1 := score_requirement_clarity_bounds body title
  have h2 := score_blast_radius_bounds body labels
  have h3 := score_system_sensitivity_bounds body
  have h4 := score_testability_bounds body
  dsimp only [calculate_confidence_score]
  refine ⟨h1, h2, h3, h4, rfl, ?_, ?_⟩ <;> omega

theorem multiFileFactor_ne_single (n : Nat) : multiFileFactor n ≠ singleFileFactor := by
  intro h
  have h2 := congrArg String.data h
  simp only [multiFileFactor, singleFileFactor, String.data_append] at h2
  simp at h2

theorem fileRefStep (l : List Char) :
    fileRefAux blastExts none ("`a.py` ".toList ++ l) =
      "a.py".toList :: fileRefAux blastExts none l := rfl

/-- Bodies consisting of k backtick-quoted references to one file. -/
def repeatFileRef : Nat → List Char
  | 0 => []
  | k + 1 => "`a.py` ".toList ++ repeatFileRef k

theorem repeatFileRef_count (k : Nat) :
    (fileRefScan blastExts (repeatFileRef k)).length = k := by
  induction k with
  | zero => rfl
  | succ k ih =>
    unfold fileRefScan at ih ⊢
    rw [repeatFileRef, fileRefStep, List.length_cons, ih]

theorem mem_ite_singleton {x s : String} {c : Prop} [Decidable c] :
    x ∈ (if c then [s] else []) ↔ c ∧ x = s := by
  split <;> simp_all

/-- C10: the blast-radius file count is the number of backtick-quoted
filename occurrences, not the number of distinct paths: the single-file
bonus factor is recorded exactly when the occurrence count is at most
one, a count of three or more records the penalty factor carrying
3 times (count minus 2) points, a body of k occurrences of one and the
same file counts k, and three occurrences of one file score 20 − 3. -/
theorem blast_radius_counts_occurrences :
    (∀ (body : List Char) (labels : List (List Char)),
      (singleFileFactor ∈ (score_blast_radius body labels).factors ↔
        (fileRefScan blastExts body).length ≤ 1) ∧
      (3 ≤ (fileRefScan blastExts body).length →
        multiFileFactor (fileRefScan blastExts body).length ∈
          (score_blast_radius body labels).factors)) ∧
    (∀ k, (fileRefScan blastExts (repeatFileRef k)).length = k) ∧
    (score_blast_radius (repeatFileRef 3) []).score = 17 := by
  refine ⟨?_, repeatFileRef_count, by decide⟩
  intro body labels
  have e0 : singleFileFactor ≠ multiFileFactor (fileRefScan blastExts body).length :=
    fun h => multiFileFactor_ne_single _ h.symm
  have e1 : singleFileFactor ≠ "Bug/fix label - usually contained (+3)" := by decide
  have e2 : singleFileFactor ≠ "Contains refactor/restructure (-5)" := by decide
  have e3 : singleFileFactor ≠ "Broad scope (all/every) (-3)" := by decide
  have e4 : singleFileFactor ≠ "Mentions multiple directories (-5)" := by decide
  dsimp only [score_blast_radius]
  by_cases h1 : (fileRefScan blastExts body).length ≤ 1
  · simp [h1, List.mem_append, mem_ite_singleton]
    omega
  · by_cases h2 : 2 < (fileRefScan blastExts body).length
    · simp [h1, h2, List.mem_append, mem_ite_singleton, e0, e1, e2, e3, e4]
    · simp [h1, h2, List.mem_append, mem_ite_singleton, e1, e2, e3, e4]
      omega

/-- C8: an empty issue body yields the insufficient-detail sentinel as
root issue and exactly the two generic action-plan steps. -/
theorem empty_body_analysis (issue : Issue)
    (h : issue.body = none ∨ issue.body = some "") :
    (analyze_ticket issue).root_issue = "Insufficient detail - please add description" ∧
    (analyze_ticket issue).action_plan = ["Implement fix", "Verify solution"] := by
  have hb : issue.body.getD "" = "" := by rcases h with h | h <;> simp [h]
  dsimp only [analyze_ticket]
  rw [hb]
  exact ⟨by decide, by decide⟩

/-- Witness for C8 at a concrete issue with an absent body. -/
theorem empty_body_analysis_witness :
    ((Issue.mk (some "Login broken") none [] "open").body = none ∨
      (Issue.mk (some "Login broken") none [] "open").body = some "") ∧
    (analyze_ticket (Issue.mk (some "Login broken") none [] "open")).root_issue =
      "Insufficient detail - please add description" ∧
    (analyze_ticket (Issue.mk (some "Login broken") none [] "open")).action_plan =
      ["Implement fix", "Verify solution"] :=
  ⟨Or.inl rfl, empty_body_analysis _ (Or.inl rfl)⟩

/-- C9: the analysis is a pure function of title, body and labels:
two issues agreeing on those three fields receive identical analyses,
whatever else differs; totality over all string inputs holds by
construction of the embedding. -/
theorem analyze_deterministic (i1 i2 : Issue)
    (h1 : i1.title = i2.title) (h2 : i1.body = i2.body)
    (h3 : i1.labels = i2.labels) :
    analyze_ticket i1 = analyze_ticket i2 := by
  dsimp only [analyze_ticket]
  rw [h1, h2, h3]

/-- Witness for C9 at two concrete issues differing in their state. -/
theorem analyze_deterministic_witness :
    ((Issue.mk (some "T") (some "B") [some "bug"] "open").title =
      (Issue.mk (some "T") (some "B") [some "bug"] "closed").title ∧
     (Issue.mk (some "T") (some "B") [some "bug"] "open").body =
      (Issue.mk (some "T") (some "B") [some "bug"] "closed").body ∧
     (Issue.mk (some "T") (some "B") [some "bug"] "open").labels =
      (Issue.mk (some "T") (some "B") [some "bug"] "closed").labels) ∧
    analyze_ticket (Issue.mk (some "T") (some "B") [some "bug"] "open") =
      analyze_ticket (Issue.mk (some "T") (some "B") [some "bug"] "closed") :=
  ⟨⟨rfl, rfl, rfl⟩, analyze_deterministic _ _ rfl rfl rfl⟩

/-- Witness for C10: three same-file occurrences carry the three-point
penalty factor. -/
theorem blast_radius_counts_occurrences_witness :
    3 ≤ (fileRefScan blastExts (repeatFileRef 3)).length ∧
    multiFileFactor (fileRefScan blastExts (repeatFileRef 3)).length ∈
      (score_blast_radius (repeatFileRef 3) []).factors :=
  ⟨by decide, (blast_radius_counts_occurrences.1 (repeatFileRef 3) []).2 (by decide)⟩

theorem runSteps_cons_run (s : String) (n : Nat) (l : List Ev) :
    runSteps (Ev.run s n :: l) = n :: runSteps l := by simp [runSteps]

theorem runSteps_nil : runSteps [] = [] := rfl

theorem runSteps_cons_failed (m : String) (l : List Ev) :
    runSteps (Ev.failed m :: l) = runSteps l := by simp [runSteps]

theorem runSteps_cons_done (a : Option Nat) (b : Option String) (l : List Ev) :
    runSteps (Ev.done a b :: l) = runSteps l := by simp [runSteps]

theorem stepAt_mono {i j : Nat} (h : i ≤ j) : stepAt i ≤ stepAt j := by
  unfold stepAt
  have h30 : 30 * (i + 1) ≤ 30 * (j + 1) := by omega
  have := Nat.div_le_div_right (c := 60) h30
  omega

theorem pollLoop_chain (remote : Nat → Remote) (u : String)
    (hnb : ∀ i, remote i ≠ .blocked) :
    ∀ fuel i, List.Chain' (· ≤ ·) (runSteps (pollLoopGo remote u fuel i)) ∧
      (∀ x ∈ (runSteps (pollLoopGo remote u fuel i)).head?, stepAt i ≤ x) := by
  intro fuel
  induction fuel with
  | zero =>
    intro i
    rw [pollLoopGo]
    split
    · simp [runSteps]
    · simp [runSteps]
  | succ fuel ih =>
    intro i
    rw [pollLoopGo]
    split
    · cases hre : remote i with
      | working =>
        rw [runSteps_cons_run]
        constructor
        · rw [List.chain'_cons']
          refine ⟨?_, (ih (i + 1)).1⟩
          intro b hb
          exact le_trans (stepAt_mono (by omega)) ((ih (i + 1)).2 b hb)
        · intro x hx
          simp at hx
          omega
      | blocked => exact absurd hre (hnb i)
      | fetchError =>
        refine ⟨(ih (i + 1)).1, ?_⟩
        intro x hx
        exact le_trans (stepAt_mono (by omega)) ((ih (i + 1)).2 x hx)
      | finished pq =>
        dsimp only
        split
        · simp [runSteps]
        · simp [runSteps]
      | expired => dsimp only; simp [runSteps]
      | suspendRequested => dsimp only; simp [runSteps]
    · simp [runSteps]

/-- C3 (amended): while the remote session never reports blocked, the
steps_completed values of successive running progress callbacks of one
execution attempt are non-decreasing; a blocked poll reports the fixed
value 2, which can undercut an earlier working report of 3. -/
theorem running_steps_monotone (api_key_configured create_ok : Bool)
    (create_err session_url : String) (remote : Nat → Remote)
    (hnb : ∀ i, remote i ≠ .blocked) :
    List.Chain' (· ≤ ·) (runSteps
      (execute_task_events api_key_configured create_ok create_err session_url remote)) := by
  unfold execute_task_events
  cases api_key_configured with
  | false => simp [runSteps]
  | true =>
    cases create_ok with
    | false => simp [runSteps]
    | true =>
      rw [if_neg (by decide), if_pos rfl]
      rw [runSteps_cons_run, runSteps_cons_run, List.chain'_cons, List.chain'_cons']
      refine ⟨by omega, ?_, (pollLoop_chain remote session_url hnb 120 0).1⟩
      intro b hb
      have h0 := (pollLoop_chain remote session_url hnb 120 0).2 b hb
      have : stepAt 0 = 1 := by decide
      omega

/-- A remote session that works for four polls, blocks once, then
finishes. -/
def remoteBlockedLate : Nat → Remote := fun i =>
  if i < 4 then .working else if i = 4 then .blocked else .finished none

/-- C3 counterexample: after four working polls the job reports
steps_completed 3, and the following blocked poll reports a running
callback with steps_completed 2, so the running reports are not
non-decreasing. -/
theorem running_steps_decrease_on_blocked :
    runSteps (execute_task_events true true "" "url" remoteBlockedLate) =
      [0, 1, 1, 2, 2, 3, 2] ∧
    ¬ List.Chain' (· ≤ ·)
      (runSteps (execute_task_events true true "" "url" remoteBlockedLate)) := by
  constructor
  · decide
  · intro hc
    have he : runSteps (execute_task_events true true "" "url" remoteBlockedLate) =
        [0, 1, 1, 2, 2, 3, 2] := by decide
    rw [he] at hc
    simp [List.chain'_cons] at hc

theorem pollLoop_shift (remote : Nat → Remote) (u : String) :
    ∀ (d fuel i : Nat),
      (∀ l, i ≤ l → l < i + d → nonTerminal (remote l) = true) →
      30 * (i + d) < 3600 → d ≤ fuel →
      ∃ pre, (∀ e ∈ pre, ∃ s n, e = Ev.run s n) ∧
        pollLoopGo remote u fuel i = pre ++ pollLoopGo remote u (fuel - d) (i + d) := by
  intro d
  induction d with
  | zero =>
    intro fuel i _ _ _
    exact ⟨[], by simp, by simp⟩
  | succ d ih =>
    intro fuel i hnt hlt hd
    cases fuel with
    | zero => omega
    | succ fuel =>
      have hnt2 : ∀ l, i + 1 ≤ l → l < i + 1 + d → nonTerminal (remote l) = true :=
        fun l h1 h2 => hnt l (by omega) (by omega)
      have harg : i + (d + 1) = i + 1 + d := by omega
      have hfu : fuel + 1 - (d + 1) = fuel - d := by omega
      have hi : nonTerminal (remote i) = true := hnt i le_rfl (by omega)
      rw [pollLoopGo, if_pos (by omega : 30 * i < 3600), harg, hfu]
      obtain ⟨pre, hp, heq⟩ := ih fuel (i + 1) hnt2 (by omega) (by omega)
      cases hre : remote i with
      | working =>
        dsimp only
        rw [heq]
        refine ⟨Ev.run (stepMessages.getD (min (stepAt i - 1) 2) "") (stepAt i) :: pre, ?_, by simp⟩
        intro e he
        rcases List.mem_cons.mp he with rfl | he2
        · exact ⟨_, _, rfl⟩
        · exact hp e he2
      | blocked =>
        dsimp only
        rw [heq]
        refine ⟨Ev.run ("Devin needs assistance - check " ++ u) 2 :: pre, ?_, by simp⟩
        intro e he
        rcases List.mem_cons.mp he with rfl | he2
        · exact ⟨_, _, rfl⟩
        · exact hp e he2
      | fetchError =>
        dsimp only
        rw [heq]
        exact ⟨pre, hp, rfl⟩
      | finished pq => rw [hre] at hi; simp [nonTerminal] at hi
      | expired => rw [hre] at hi; simp [nonTerminal] at hi
      | suspendRequested => rw [hre] at hi; simp [nonTerminal] at hi

theorem execute_events_shape (u : String) (remote : Nat → Remote) :
    execute_task_events true true "" u remote =
      Ev.run "Creating Devin session..." 0 ::
        Ev.run "Devin is analyzing the codebase..." 1 :: pollLoopGo remote u 120 0 := rfl

/-- C7 (amended): the polling loop raises the timeout failure exactly
when the session fails to reach finished strictly before elapsed time
3600: a first finished answer at one of polls 0..118 completes via the
completion callback with no timeout, while a first finished answer at
poll 119 (elapsed exactly 3600, not exceeding it) still reports the
timeout failure and never completes; a session that stays unfinished
through all 120 polls also reports the timeout failure. -/
theorem execute_timeout_iff :
    (∀ (remote : Nat → Remote) (u : String) (pq : Option (Option String)) (i : Nat),
      i < 120 →
      (∀ j, j < i → nonTerminal (remote j) = true) →
      remote i = .finished pq →
      ((i < 119 →
        (∃ prn pru, Ev.done prn pru ∈ execute_task_events true true "" u remote) ∧
          Ev.failed timeoutMsg ∉ execute_task_events true true "" u remote) ∧
       (i = 119 →
        Ev.failed timeoutMsg ∈ execute_task_events true true "" u remote ∧
          ∀ prn pru, Ev.done prn pru ∉ execute_task_events true true "" u remote))) ∧
    (∀ (remote : Nat → Remote) (u : String),
      (∀ j, j < 120 → nonTerminal (remote j) = true) →
      Ev.failed timeoutMsg ∈ execute_task_events true true "" u remote) := by
  constructor
  · intro remote u pq i hi hnt hre
    obtain ⟨pre, hp, heq⟩ := pollLoop_shift remote u i 120 0
      (fun l h0 hl => hnt l (by omega)) (by omega) (by omega)
    have h120 : 120 - i = (119 - i) + 1 := by omega
    have h0i : (0 : Nat) + i = i := by omega
    rw [h120, h0i] at heq
    constructor
    · intro hlt
      obtain ⟨prn, pru, htail⟩ :
          ∃ prn pru, pollLoopGo remote u ((119 - i) + 1) i = [Ev.done prn pru] := by
        rw [pollLoopGo, if_pos (by omega : 30 * i < 3600), hre]
        dsimp only
        rw [if_neg (by omega : ¬ 3600 ≤ 30 * (i + 1))]
        exact ⟨_, _, rfl⟩
      rw [htail] at heq
      constructor
      · refine ⟨prn, pru, ?_⟩
        rw [execute_events_shape, heq]
        simp
      · intro hmem
        rw [execute_events_shape, heq] at hmem
        simp at hmem
        obtain ⟨s, n, hsn⟩ := hp _ hmem
        exact Ev.noConfusion hsn
    · intro h119
      subst h119
      have htail : pollLoopGo remote u ((119 - 119) + 1) 119 = [Ev.failed timeoutMsg] := by
        rw [pollLoopGo, if_pos (by omega : 30 * 119 < 3600), hre]
        dsimp only
        rw [if_pos (by omega : 3600 ≤ 30 * (119 + 1))]
      rw [htail] at heq
      constructor
      · rw [execute_events_shape, heq]
        simp
      · intro prn pru hmem
        rw [execute_events_shape, heq] at hmem
        simp at hmem
        obtain ⟨s, n, hsn⟩ := hp _ hmem
        exact Ev.noConfusion hsn
  · intro remote u hnt
    obtain ⟨pre, hp, heq⟩ := pollLoop_shift remote u 119 120 0
      (fun l h0 hl => hnt l (by omega)) (by omega) (by omega)
    rw [execute_events_shape, heq]
    have hend : pollLoopGo remote u (120 - 119) (0 + 119) =
        pollLoopGo remote u 1 119 := by norm_num
    rw [hend, pollLoopGo, if_pos (by omega : 30 * 119 < 3600)]
    have h119 := hnt 119 (by omega)
    cases hre : remote 119 with
    | working =>
      dsimp only
      rw [pollLoopGo, if_neg (by omega : ¬ 30 * 120 < 3600)]
      simp
    | blocked =>
      dsimp only
      rw [pollLoopGo, if_neg (by omega : ¬ 30 * 120 < 3600)]
      simp
    | fetchError =>
      dsimp only
      rw [pollLoopGo, if_neg (by omega : ¬ 30 * 120 < 3600)]
      simp
    | finished pq => rw [hre] at h119; simp [nonTerminal] at h119
    | expired => rw [hre] at h119; simp [nonTerminal] at h119
    | suspendRequested => rw [hre] at h119; simp [nonTerminal] at h119


/-- A remote session that reaches finished exactly when elapsed time
hits the 3600 ceiling. -/
def remoteFinishLate : Nat → Remote := fun i =>
  if i < 119 then .working else .finished (some (some "https://github.com/x/y/pull/42"))

/-- C7 counterexample: the session reaches finished at the poll that
brings elapsed time to exactly 3600, which does not exceed the
ceiling, yet the loop reports the timeout failure and never invokes
the completion callback. -/
theorem timeout_despite_finished :
    remoteFinishLate 119 = .finished (some (some "https://github.com/x/y/pull/42")) ∧
    Ev.failed timeoutMsg ∈ execute_task_events true true "" "u" remoteFinishLate ∧
    (execute_task_events true true "" "u" remoteFinishLate).all
      (fun e => !(evIsDone e)) = true :=
  ⟨rfl, by decide, by decide⟩

/-- A remote session that finishes early with a pull request. -/
def remoteEarlyFinish : Nat → Remote := fun i =>
  if i < 3 then .working else .finished (some (some "https://github.com/x/y/pull/42"))

/-- Witness for C7 at a session finishing on the fourth poll. -/
theorem execute_timeout_iff_witness :
    ((3 : Nat) < 120 ∧ (∀ j, j < 3 → nonTerminal (remoteEarlyFinish j) = true) ∧
      remoteEarlyFinish 3 = .finished (some (some "https://github.com/x/y/pull/42"))) ∧
    (∃ prn pru, Ev.done prn pru ∈ execute_task_events true true "" "u" remoteEarlyFinish) ∧
    Ev.failed timeoutMsg ∉ execute_task_events true true "" "u" remoteEarlyFinish :=
  ⟨⟨by decide, by decide, rfl⟩,
    (execute_timeout_iff.1 remoteEarlyFinish "u" _ 3 (by decide) (by decide) rfl).1
      (by decide)⟩

/-- Witness for C3 at a session that always reports working. -/
theorem running_steps_monotone_witness :
    (∀ i, (fun _ : Nat => Remote.working) i ≠ Remote.blocked) ∧
    List.Chain' (· ≤ ·)
      (runSteps (execute_task_events true true "" "u" (fun _ => Remote.working))) :=
  ⟨fun _ h => Remote.noConfusion h,
    running_steps_monotone true true "" "u" _ (fun _ h => Remote.noConfusion h)⟩

theorem applyJobUpdates_completed_at (us : List JobUpdate) :
    ∀ j : JobRec, (applyJobUpdates j us).completed_at ≠ none ↔
      (j.completed_at ≠ none ∨ ∃ u ∈ us, u.status = .completed ∨ u.status = .failed) := by
  induction us with
  | nil => intro j; simp [applyJobUpdates]
  | cons u us ih =>
    intro j
    have hstep : applyJobUpdates j (u :: us) =
        applyJobUpdates
          (jobUpdateStatus j u.status u.current_step u.steps_completed u.error_message u.now)
          us := rfl
    rw [hstep, ih]
    by_cases hs : u.status = .completed ∨ u.status = .failed
    · simp [jobUpdateStatus, hs]
    · simp [jobUpdateStatus, hs]

/-- C4 (amended): starting from a fresh job, completed_at is non-null
after a sequence of status updates exactly when some update set the
status to completed or failed; an update to cancelled does not stamp
completed_at. -/
theorem completed_at_iff_terminal_update (id : Nat) (us : List JobUpdate) :
    (applyJobUpdates (freshJob id) us).completed_at ≠ none ↔
      ∃ u ∈ us, u.status = .completed ∨ u.status = .failed := by
  rw [applyJobUpdates_completed_at]
  simp [freshJob]

/-- C4 counterexample: cancelling a fresh running job through the jobs
endpoint leaves a terminal cancelled status with completed_at still
null, refuting the claimed equivalence. -/
theorem cancelled_job_without_completed_at :
    (cancel_job_endpoint (freshJob 0) 5).map (fun j => (j.status, j.completed_at)) =
      some (JStatus.cancelled, none) := by decide

/-- C2 (amended): every status change made by a core operation moves
to scoped (scope, cancel and the failure callback, from any status) or
to review (the completion callback, from any status), or is the
guarded edge scoped to in_progress (execute) or review to complete
(complete); in particular the claimed edge list also admits re-scoping
away from review or complete. -/
theorem status_change_targets (st : OrchState) (op : Op) (t t' : TicketRec)
    (h1 : st.ticket = some t) (h2 : (applyOp st op).ticket = some t')
    (hne : t.status ≠ t'.status) :
    t'.status = .scoped ∨ t'.status = .review ∨
      (t.status = .scoped ∧ t'.status = .in_progress) ∨
      (t.status = .review ∧ t'.status = .complete) := by
  cases op with
  | scope d =>
    simp [applyOp, scope_ticket_op, ticketUpdateStatus, ticketUpdateScope,
      ticketCreateOrUpdate, h1] at h2
    simp [← h2]
  | execute k =>
    by_cases hk : k
    · subst hk
      simp only [applyOp, execute_ticket_op, Bool.not_true, h1] at h2
      by_cases hs : t.status = .scoped
      · simp [hs, ticketUpdateStatus, h1] at h2
        exact Or.inr (Or.inr (Or.inl ⟨hs, by simp [← h2]⟩))
      · simp [hs, h1] at h2
        exact absurd (by rw [h2]) hne
    · have hk2 : k = false := by simpa using hk
      subst hk2
      simp [applyOp, execute_ticket_op] at h2
      rw [h1] at h2
      have heqt : t = t' := Option.some.inj h2
      exact absurd (by rw [heqt]) hne
  | cancel =>
    simp only [applyOp, cancel_ticket_op, h1] at h2
    cases hjob : st.jobs.head? with
    | none =>
      rw [hjob] at h2
      simp at h2
      rw [h1] at h2
      simp at h2
      exact absurd (by rw [h2]) hne
    | some job =>
      rw [hjob] at h2
      by_cases hg : job.status ≠ .running ∧ job.status ≠ .failed
      · simp [hg] at h2
        rw [h1] at h2
        simp at h2
        exact absurd (by rw [h2]) hne
      · simp [hg, ticketUpdateStatus, h1] at h2
        by_cases hr : job.status = .running <;> simp [hr, h1] at h2 <;> simp [← h2]
  | complete =>
    simp only [applyOp, complete_ticket_op, h1] at h2
    by_cases hs : t.status = .review
    · simp [hs, ticketUpdateStatus, h1] at h2
      exact Or.inr (Or.inr (Or.inr ⟨hs, by simp [← h2]⟩))
    · simp [hs] at h2
      rw [h1] at h2
      have heqt : t = t' := Option.some.inj h2
      exact absurd (by rw [heqt]) hne
  | progress jid s cs sc err =>
    simp only [applyOp, job_progress_cb] at h2
    by_cases hf : s = .failed
    · simp [hf, ticketUpdateStatus, h1] at h2
      simp [← h2]
    · simp [hf, h1] at h2
      exact absurd (by rw [h2]) hne
  | completionCb jid prn pru =>
    simp [applyOp, complete_job_cb, ticketUpdateStatus, h1] at h2
    simp [← h2]
  | worktreeCb jid wp bn =>
    simp [applyOp, worktree_cb, h1] at h2
    exact absurd (by rw [h2]) hne

def st0 : OrchState :=
  { ticket := none, jobs := [], cancel_flags := [], next_id := 0, now := 0 }

def opTraceC2 : List Op :=
  [Op.scope "d", Op.execute true, Op.completionCb 0 (some 5) (some "u"), Op.scope "d2"]

/-- C2 counterexample: scope, execute, completion callback, scope
leaves review along the edge review to scoped, which the claimed edge
list forbids. -/
theorem rescope_from_review :
    ((opTraceC2.take 3).foldl applyOp st0).ticket.map TicketRec.status =
      some TStatus.review ∧
    (opTraceC2.foldl applyOp st0).ticket.map TicketRec.status = some TStatus.scoped ∧
    claimedEdge .review .scoped = false := ⟨by decide, by decide, by decide⟩

/-- Witness for C2 at the guarded execute transition. -/
theorem status_change_targets_witness :
    ((OrchState.mk (some (TicketRec.mk .scoped (some "d") none none)) [] [] 0 0).ticket =
        some (TicketRec.mk .scoped (some "d") none none) ∧
      (applyOp (OrchState.mk (some (TicketRec.mk .scoped (some "d") none none)) [] [] 0 0)
          (Op.execute true)).ticket = some (TicketRec.mk .in_progress (some "d") none none) ∧
      (TicketRec.mk .scoped (some "d") none none).status ≠
        (TicketRec.mk .in_progress (some "d") none none).status) ∧
    ((TicketRec.mk .in_progress (some "d") none none).status = .scoped ∨
      (TicketRec.mk .in_progress (some "d") none none).status = .review ∨
      ((TicketRec.mk .scoped (some "d") none none).status = .scoped ∧
        (TicketRec.mk .in_progress (some "d") none none).status = .in_progress) ∨
      ((TicketRec.mk .scoped (some "d") none none).status = .review ∧
        (TicketRec.mk .in_progress (some "d") none none).status = .complete)) :=
  ⟨⟨rfl, by decide, by decide⟩,
    status_change_targets
      (OrchState.mk (some (TicketRec.mk .scoped (some "d") none none)) [] [] 0 0)
      (Op.execute true) _ _ rfl (by decide) (by decide)⟩

/-- C5 (amended): cancel is permitted exactly when the ticket exists
and its latest job is running or failed; a running job is force-marked
failed with the sentinel text Cancelled by user (capitalised, unlike
the lowercase sentinel quoted in the claim), and the ticket returns to
scoped in both permitted cases. -/
theorem cancel_semantics :
    (∀ st : OrchState, st.ticket = none →
      cancel_ticket_op st = (st, some ticketNotFoundMsg)) ∧
    (∀ st : OrchState, st.ticket.isSome = true → st.jobs.head? = none →
      cancel_ticket_op st = (st, some cancelRejectMsg)) ∧
    (∀ (st : OrchState) (j : JobRec), st.ticket.isSome = true →
      st.jobs.head? = some j → j.status ≠ .running → j.status ≠ .failed →
      cancel_ticket_op st = (st, some cancelRejectMsg)) ∧
    (∀ (st : OrchState) (t : TicketRec) (j : JobRec),
      st.ticket = some t → st.jobs.head? = some j →
      (j.status = .running ∨ j.status = .failed) →
      (cancel_ticket_op st).2 = none ∧
      ((cancel_ticket_op st).1.ticket.map TicketRec.status) = some .scoped ∧
      (j.status = .running →
        ((cancel_ticket_op st).1.jobs.head?.map
          (fun j2 => (j2.status, j2.error_message))) =
            some (.failed, some "Cancelled by user"))) := by
  refine ⟨?_, ?_, ?_, ?_⟩
  · intro st h
    simp [cancel_ticket_op, h]
  · intro st h1 h2
    obtain ⟨t, ht⟩ := Option.isSome_iff_exists.mp h1
    simp [cancel_ticket_op, ht, h2]
  · intro st j h1 h2 h3 h4
    obtain ⟨t, ht⟩ := Option.isSome_iff_exists.mp h1
    simp [cancel_ticket_op, ht, h2, h3, h4]
  · intro st t j ht hj hrf
    have hguard : ¬(j.status ≠ .running ∧ j.status ≠ .failed) := by
      rcases hrf with h | h <;> simp [h]
    obtain ⟨tl, hjobs⟩ : ∃ tl, st.jobs = j :: tl := by
      cases hjl : st.jobs with
      | nil => rw [hjl] at hj; simp at hj
      | cons a tl =>
        rw [hjl] at hj
        simp at hj
        exact ⟨tl, by rw [hj]⟩
    by_cases hr : j.status = .running
    · refine ⟨?_, ?_, ?_⟩ <;>
        simp [cancel_ticket_op, ht, hj, hguard, hr, hjobs, updateJobInList,
          jobUpdateStatus, ticketUpdateStatus]
    · have hf : j.status = .failed := by
        rcases hrf with h | h
        · exact absurd h hr
        · exact h
      refine ⟨?_, ?_, ?_⟩
      · simp [cancel_ticket_op, ht, hj, hguard, hr, hf]
      · simp [cancel_ticket_op, ht, hj, hguard, hr, hf, ticketUpdateStatus]
      · intro hr2
        exact absurd hr2 hr

def stC5 : OrchState :=
  { ticket := some (TicketRec.mk .in_progress (some "d") none none),
    jobs := [freshJob 0], cancel_flags := [], next_id := 1, now := 7 }

/-- C5 counterexample: cancelling a running job stores the sentinel
Cancelled by user, which differs from the claimed lowercase text. -/
theorem cancel_sentinel_capitalised :
    ((cancel_ticket_op stC5).1.jobs.head?.map (fun j => j.error_message)) =
      some (some "Cancelled by user") ∧
    (some (some "Cancelled by user") : Option (Option String)) ≠
      some (some "cancelled by user") := ⟨by decide, by decide⟩

/-- Witness for C5 at a running job. -/
theorem cancel_semantics_witness :
    (stC5.ticket = some (TicketRec.mk .in_progress (some "d") none none) ∧
      stC5.jobs.head? = some (freshJob 0) ∧
      ((freshJob 0).status = .running ∨ (freshJob 0).status = .failed)) ∧
    (cancel_ticket_op stC5).2 = none ∧
    ((cancel_ticket_op stC5).1.ticket.map TicketRec.status) = some .scoped ∧
    ((freshJob 0).status = .running →
      ((cancel_ticket_op stC5).1.jobs.head?.map
        (fun j2 => (j2.status, j2.error_message))) =
          some (.failed, some "Cancelled by user")) :=
  ⟨⟨rfl, rfl, Or.inl rfl⟩,
    cancel_semantics.2.2.2 stC5 _ _ rfl rfl (Or.inl rfl)⟩

/-- C6: execute on a missing ticket, a ticket whose status is not
scoped, or without the execution credential fails with an error and
leaves the whole stored state unchanged: no job row is created and
every ticket field keeps its value. -/
theorem execute_rejects_without_side_effects (st : OrchState) (k : Bool)
    (h : k = false ∨ st.ticket = none ∨
      ∃ t, st.ticket = some t ∧ t.status ≠ .scoped) :
    (execute_ticket_op k st).1 = st ∧ ((execute_ticket_op k st).2).isSome = true := by
  rcases h with h | h | ⟨t, ht, hs⟩
  · subst h
    simp [execute_ticket_op]
  · cases k <;> simp [execute_ticket_op, h]
  · cases k <;> simp [execute_ticket_op, ht, hs]

def stC6 : OrchState :=
  { ticket := some (TicketRec.mk .review (some "d") none none),
    jobs := [], cancel_flags := [], next_id := 0, now := 0 }

/-- Witness for C6 at a ticket in review. -/
theorem execute_rejects_witness :
    ((true : Bool) = false ∨ stC6.ticket = none ∨
      ∃ t, stC6.ticket = some t ∧ t.status ≠ .scoped) ∧
    (execute_ticket_op true stC6).1 = stC6 ∧
    ((execute_ticket_op true stC6).2).isSome = true :=
  ⟨Or.inr (Or.inr ⟨TicketRec.mk .review (some "d") none none, rfl, by decide⟩),
    execute_rejects_without_side_effects stC6 true
      (Or.inr (Or.inr ⟨TicketRec.mk .review (some "d") none none, rfl, by decide⟩))⟩

end KGDash
